import Mathlib

/-!
Verification of the Autism Prediction API backend (main.py, schemas.py).

The document store is modelled as explicit lists of stored documents, one per
collection, with a counter supplying fresh document ids.  Numeric features and
probabilities are modelled as rationals; the weights 0.18, 0.22, 0.22, 0.2,
0.18 are exact decimals and the example inputs of the spec produce exactly the
same values in IEEE double arithmetic, so the rational model is observationally
faithful at every value the claims mention.  The password digest and the random
token generator are nondeterministic or external in the source, so they are
passed in as explicit parameters (a digest function, and the token the
generator returns).  Python truthiness on optional strings (where an empty
string counts as absent, as in `if not token`) is modelled by `pyTruthy`.
-/

namespace AutismAPI

/-- Patients collection schema (schemas.py, class Patient). -/
structure Patient where
  name : String
  email : String
  password_hash : String
  age : Option Int := none
  gender : Option String := none
deriving DecidableEq

/-- Doctors collection schema (schemas.py, class Doctor). -/
structure Doctor where
  name : String
  email : String
  password_hash : String
  specialty : Option String := none
  hospital : Option String := none
deriving DecidableEq

/-- Assessments collection schema (schemas.py, class Assessment); the features
dict is modelled as an association list in insertion order. -/
structure Assessment where
  patient_id : String
  features : List (String × ℚ) := []
  score : ℚ
  probability : ℚ
  result_label : String
  notes : Option String := none
  reviewed_by : Option String := none
  feedback_id : Option String := none
deriving DecidableEq

/-- Feedback collection schema (schemas.py, class Feedback). -/
structure Feedback where
  doctor_id : String
  assessment_id : String
  message : String
  severity : Option String := none
  recommendations : List String := []
deriving DecidableEq

/-- Session tokens collection schema (schemas.py, class Session). -/
structure Session where
  user_id : String
  role : String
  token : String
deriving DecidableEq

/-- A document together with its store-assigned opaque id. -/
structure Stored (α : Type) where
  id : String
  doc : α
deriving DecidableEq

/-- The document store: one list per collection (insertion order), plus the
counter from which fresh document ids are generated. -/
structure DB where
  patients : List (Stored Patient)
  doctors : List (Stored Doctor)
  assessments : List (Stored Assessment)
  feedbacks : List (Stored Feedback)
  sessions : List (Stored Session)
  nextId : Nat
deriving DecidableEq

/-- The empty store. -/
def dbEmpty : DB := ⟨[], [], [], [], [], 0⟩

/-- The id `create_document` assigns to the next document. -/
def freshId (db : DB) : String := toString db.nextId

/-- create_document on the "patient" collection. -/
def createPatient (p : Patient) (db : DB) : String × DB :=
  (freshId db, ⟨db.patients ++ [⟨freshId db, p⟩], db.doctors, db.assessments,
    db.feedbacks, db.sessions, db.nextId + 1⟩)

/-- create_document on the "doctor" collection. -/
def createDoctor (d : Doctor) (db : DB) : String × DB :=
  (freshId db, ⟨db.patients, db.doctors ++ [⟨freshId db, d⟩], db.assessments,
    db.feedbacks, db.sessions, db.nextId + 1⟩)

/-- create_document on the "assessment" collection. -/
def createAssessment (a : Assessment) (db : DB) : String × DB :=
  (freshId db, ⟨db.patients, db.doctors, db.assessments ++ [⟨freshId db, a⟩],
    db.feedbacks, db.sessions, db.nextId + 1⟩)

/-- create_document on the "feedback" collection. -/
def createFeedback (f : Feedback) (db : DB) : String × DB :=
  (freshId db, ⟨db.patients, db.doctors, db.assessments,
    db.feedbacks ++ [⟨freshId db, f⟩], db.sessions, db.nextId + 1⟩)

/-- create_document on the "session" collection. -/
def createSession (s : Session) (db : DB) : String × DB :=
  (freshId db, ⟨db.patients, db.doctors, db.assessments, db.feedbacks,
    db.sessions ++ [⟨freshId db, s⟩], db.nextId + 1⟩)

/-- Python truthiness of an optional string: None and the empty string are
falsy, every other string is truthy (main.py uses `if not token` etc.). -/
def pyTruthy : Option String → Bool
  | none => false
  | some s => !s.isEmpty

/-- The expression `str(pid) if pid else "unknown"` of main.py line 159. -/
def pyStrOrUnknown : Option String → String
  | none => "unknown"
  | some s => if s.isEmpty then "unknown" else s

/-- Python str.lower(), as used on role strings (main.py lines 84 and 105):
lowercase every character. -/
def pyLower (s : String) : String := ⟨s.data.map Char.toLower⟩

/-- An HTTPException as raised in main.py: status code and detail message. -/
structure HTTPError where
  status : Nat
  detail : String
deriving DecidableEq

/-- verify_password (main.py lines 27-28), parameterised by the digest
function standing for sha256-hexdigest. -/
def verify_password (digest : String → String) (password password_hash : String) : Bool :=
  digest password == password_hash

/-- Uniform view of a user document returned by get_user_by_email. -/
structure UserView where
  id : String
  name : String
  email : String
  password_hash : String
deriving DecidableEq

/-- get_user_by_email (main.py lines 71-74): first match by email in the
role-scoped collection ("patient" selects patients, anything else doctors). -/
def get_user_by_email (role email : String) (db : DB) : Option UserView :=
  if role = "patient" then
    (db.patients.find? (fun d => d.doc.email = email)).map
      (fun d => ⟨d.id, d.doc.name, d.doc.email, d.doc.password_hash⟩)
  else
    (db.doctors.find? (fun d => d.doc.email = email)).map
      (fun d => ⟨d.id, d.doc.name, d.doc.email, d.doc.password_hash⟩)

/-- create_session (main.py lines 65-68); the freshly generated random token
is passed in as `tok`. -/
def create_session (tok user_id role : String) (db : DB) : String × DB :=
  let (_, db') := createSession ⟨user_id, role, tok⟩ db
  (tok, db')

/-- Session lookup `get_documents("session", ("token": token), limit=1)` used
by /predict, /patient/assessments, /doctor/assessments, /doctor/feedback. -/
def resolve_session (tok : String) (db : DB) : Option (Stored Session) :=
  db.sessions.find? (fun s => s.doc.token = tok)

/-- Request body of POST /auth/register. -/
structure RegisterRequest where
  role : String
  name : String
  email : String
  password : String
deriving DecidableEq

/-- Request body of POST /auth/login. -/
structure LoginRequest where
  role : String
  email : String
  password : String
deriving DecidableEq

/-- Request body of POST /predict. -/
structure PredictionRequest where
  eye_contact : ℚ
  speech_delay : ℚ
  repetitive_behavior : ℚ
  sensory_sensitivity : ℚ
  social_interaction_difficulty : ℚ
  notes : Option String := none
deriving DecidableEq

/-- Request body of POST /doctor/feedback. -/
structure FeedbackRequest where
  assessment_id : String
  message : String
  severity : Option String := none
  recommendations : Option (List String) := none
deriving DecidableEq

/-- Response of register and login. -/
structure AuthResponse where
  token : String
  role : String
  user_id : String
  name : String
  email : String
deriving DecidableEq

/-- register (main.py lines 82-100). -/
def register (digest : String → String) (tok : String) (req : RegisterRequest)
    (db : DB) : Except HTTPError (AuthResponse × DB) :=
  let role := pyLower req.role
  if role ≠ "patient" ∧ role ≠ "doctor" then
    .error ⟨400, "Role must be patient or doctor"⟩
  else if (get_user_by_email role req.email db).isSome then
    .error ⟨409, "Email already registered"⟩
  else
    let password_hash := digest req.password
    let (user_id, db1) :=
      if role = "patient" then
        createPatient ⟨req.name, req.email, password_hash, none, none⟩ db
      else
        createDoctor ⟨req.name, req.email, password_hash, none, none⟩ db
    let (token, db2) := create_session tok user_id role db1
    .ok (⟨token, role, user_id, req.name, req.email⟩, db2)

/-- login (main.py lines 103-113). -/
def login (digest : String → String) (tok : String) (req : LoginRequest)
    (db : DB) : Except HTTPError (AuthResponse × DB) :=
  let role := pyLower req.role
  if role ≠ "patient" ∧ role ≠ "doctor" then
    .error ⟨400, "Role must be patient or doctor"⟩
  else
    match get_user_by_email role req.email db with
    | none => .error ⟨401, "Invalid credentials"⟩
    | some user =>
      if ¬ verify_password digest req.password user.password_hash then
        .error ⟨401, "Invalid credentials"⟩
      else
        let (token, db') := create_session tok user.id role db
        .ok (⟨token, role, user.id, user.name, user.email⟩, db')

/-- The weights dict of main.py lines 123-129, in iteration order. -/
def weights : List (String × ℚ) :=
  [("eye_contact", 18/100), ("speech_delay", 22/100), ("repetitive_behavior", 22/100),
   ("sensory_sensitivity", 20/100), ("social_interaction_difficulty", 18/100)]

/-- getattr(req, k) for the five feature keys. -/
def getFeature (req : PredictionRequest) : String → ℚ
  | "eye_contact" => req.eye_contact
  | "speech_delay" => req.speech_delay
  | "repetitive_behavior" => req.repetitive_behavior
  | "sensory_sensitivity" => req.sensory_sensitivity
  | "social_interaction_difficulty" => req.social_interaction_difficulty
  | _ => 0

/-- The accumulation loop of main.py lines 130-132. -/
def scoreTotal (req : PredictionRequest) : ℚ :=
  weights.foldl (fun total kw => total + getFeature req kw.1 * kw.2) 0

/-- Python min(a, b): the second argument replaces the first only when it is
strictly smaller. -/
def pyMin (a b : ℚ) : ℚ := if b < a then b else a

/-- Python max(a, b): the second argument replaces the first only when it is
strictly larger. -/
def pyMax (a b : ℚ) : ℚ := if a < b then b else a

/-- probability = max(0.0, min(1.0, total)) (main.py line 133). -/
def clampProbability (total : ℚ) : ℚ := pyMax 0 (pyMin 1 total)

/-- The label thresholds of main.py lines 134-139. -/
def riskLabel (probability : ℚ) : String :=
  if probability < 33/100 then "Low Risk"
  else if probability < 66/100 then "Moderate Risk"
  else "High Risk"

/-- The features dict persisted with an assessment (main.py lines 150-156). -/
def featuresDict (req : PredictionRequest) : List (String × ℚ) :=
  [("eye_contact", req.eye_contact), ("speech_delay", req.speech_delay),
   ("repetitive_behavior", req.repetitive_behavior),
   ("sensory_sensitivity", req.sensory_sensitivity),
   ("social_interaction_difficulty", req.social_interaction_difficulty)]

/-- Response of POST /predict. -/
structure PredictResponse where
  assessment_id : String
  probability : ℚ
  label : String
deriving DecidableEq

/-- The patient-id resolution of main.py lines 142-148: pid starts as the
supplied user_id; only when a token is present and pid is falsy is the token
resolved, and only a session with role patient is honoured as owner. -/
def predictPid (token user_id : Option String) (db : DB) : Option String :=
  match token with
  | some t =>
    if pyTruthy (some t) ∧ ¬ pyTruthy user_id then
      match resolve_session t db with
      | some sess =>
        if sess.doc.role = "patient" then some sess.doc.user_id else user_id
      | none => user_id
    else user_id
  | none => user_id

/-- predict (main.py lines 116-172).  `token` and `user_id` are the optional
query parameters. -/
def predict (req : PredictionRequest) (token user_id : Option String)
    (db : DB) : Except HTTPError (PredictResponse × DB) :=
  if ¬ pyTruthy token ∧ ¬ pyTruthy user_id then
    .error ⟨401, "Authentication required"⟩
  else
    let total := scoreTotal req
    let probability := clampProbability total
    let label := riskLabel probability
    let pid : Option String := predictPid token user_id db
    let assessment : Assessment :=
      ⟨pyStrOrUnknown pid, featuresDict req, probability, probability, label,
        some ((req.notes).getD ""), none, none⟩
    let (assessment_id, db') := createAssessment assessment db
    .ok (⟨assessment_id, probability, label⟩, db')

/-- patient_assessments (main.py lines 175-182). -/
def patient_assessments (tok : String) (db : DB) :
    Except HTTPError (List (Stored Assessment)) :=
  match resolve_session tok db with
  | none => .error ⟨401, "Unauthorized"⟩
  | some sess =>
    if sess.doc.role ≠ "patient" then .error ⟨401, "Unauthorized"⟩
    else .ok (db.assessments.filter (fun a => a.doc.patient_id = sess.doc.user_id))

/-- doctor_assessments (main.py lines 185-191). -/
def doctor_assessments (tok : String) (db : DB) :
    Except HTTPError (List (Stored Assessment)) :=
  match resolve_session tok db with
  | none => .error ⟨401, "Unauthorized"⟩
  | some sess =>
    if sess.doc.role ≠ "doctor" then .error ⟨401, "Unauthorized"⟩
    else .ok db.assessments

/-- doctor_feedback (main.py lines 194-209). -/
def doctor_feedback (req : FeedbackRequest) (tok : String) (db : DB) :
    Except HTTPError (String × DB) :=
  match resolve_session tok db with
  | none => .error ⟨401, "Unauthorized"⟩
  | some sess =>
    if sess.doc.role ≠ "doctor" then .error ⟨401, "Unauthorized"⟩
    else
      let fb : Feedback := ⟨sess.doc.user_id, req.assessment_id, req.message,
        req.severity, (req.recommendations).getD []⟩
      let (feedback_id, db') := createFeedback fb db
      .ok (feedback_id, db')

/-- The most recently persisted assessment document. -/
def lastAssessment (db : DB) : Option (Stored Assessment) := db.assessments.getLast?

/-! Helper lemmas about the scoring pipeline. -/

/-- The accumulation loop computes the weighted linear combination. -/
theorem scoreTotal_eq (req : PredictionRequest) :
    scoreTotal req =
      18/100 * req.eye_contact + 22/100 * req.speech_delay +
      22/100 * req.repetitive_behavior + 20/100 * req.sensory_sensitivity +
      18/100 * req.social_interaction_difficulty := by
  simp only [scoreTotal, weights, getFeature, List.foldl]
  ring

/-- The Python-style clamp agrees with max/min. -/
theorem clampProbability_eq_max_min (t : ℚ) :
    clampProbability t = max 0 (min 1 t) := by
  unfold clampProbability pyMin pyMax
  rcases lt_trichotomy t 0 with h | h | h <;> rcases lt_trichotomy t 1 with h1 | h1 | h1 <;>
    simp [min_def, max_def] <;> split_ifs <;> linarith

/-- The clamp lands in the unit interval. -/
theorem clampProbability_mem (t : ℚ) :
    0 ≤ clampProbability t ∧ clampProbability t ≤ 1 := by
  unfold clampProbability pyMin pyMax
  split_ifs <;> constructor <;> linarith

/-- The three risk labels partition the unit interval at 0.33 and 0.66, with
no gap and no overlap. -/
theorem riskLabel_partition (p : ℚ) :
    (riskLabel p = "Low Risk" ↔ p < 33/100) ∧
    (riskLabel p = "Moderate Risk" ↔ 33/100 ≤ p ∧ p < 66/100) ∧
    (riskLabel p = "High Risk" ↔ 66/100 ≤ p) := by
  unfold riskLabel
  split_ifs with h1 h2
  · exact ⟨iff_of_true rfl h1,
      iff_of_false (by decide) (fun hc => absurd h1 (not_lt.mpr hc.1)),
      iff_of_false (by decide) (fun hc => by linarith)⟩
  · exact ⟨iff_of_false (by decide) h1,
      iff_of_true rfl ⟨not_lt.mp h1, h2⟩,
      iff_of_false (by decide) (fun hc => by linarith)⟩
  · exact ⟨iff_of_false (by decide) h1,
      iff_of_false (by decide) (fun hc => absurd hc.2 h2),
      iff_of_true rfl (not_lt.mp h2)⟩

/-- Inversion of a successful predict call: the response carries the clamped
weighted score and its label, and the new assessment is appended. -/
theorem predict_ok_inv (req : PredictionRequest) (token user_id : Option String)
    (db : DB) (res : PredictResponse × DB)
    (h : predict req token user_id db = .ok res) :
    res.1.probability = clampProbability (scoreTotal req) ∧
    res.1.label = riskLabel (clampProbability (scoreTotal req)) := by
  unfold predict at h
  split at h
  · exact absurd h (by simp)
  · simp only [Except.ok.injEq] at h
    subst h
    exact ⟨rfl, rfl⟩

/-- C1: for every feature vector, predict computes
probability = clamp(0.18*eye_contact + 0.22*speech_delay + 0.22*repetitive_behavior
+ 0.20*sensory_sensitivity + 0.18*social_interaction_difficulty, 0, 1), labels it
"Low Risk" when probability < 0.33, "Moderate Risk" when 0.33 <= probability < 0.66
and "High Risk" otherwise, and the three labels partition [0,1] with no gap or
overlap. -/
theorem predict_probability_formula_and_label_partition
    (req : PredictionRequest) (token user_id : Option String) (db : DB)
    (res : PredictResponse × DB)
    (h : predict req token user_id db = .ok res) :
    res.1.probability =
      max 0 (min 1 (18/100 * req.eye_contact + 22/100 * req.speech_delay +
        22/100 * req.repetitive_behavior + 20/100 * req.sensory_sensitivity +
        18/100 * req.social_interaction_difficulty)) ∧
    0 ≤ res.1.probability ∧ res.1.probability ≤ 1 ∧
    (res.1.label = "Low Risk" ↔ res.1.probability < 33/100) ∧
    (res.1.label = "Moderate Risk" ↔ 33/100 ≤ res.1.probability ∧ res.1.probability < 66/100) ∧
    (res.1.label = "High Risk" ↔ 66/100 ≤ res.1.probability) ∧
    (∀ p : ℚ, (riskLabel p = "Low Risk" ↔ p < 33/100) ∧
      (riskLabel p = "Moderate Risk" ↔ 33/100 ≤ p ∧ p < 66/100) ∧
      (riskLabel p = "High Risk" ↔ 66/100 ≤ p)) := by
  obtain ⟨hp, hl⟩ := predict_ok_inv req token user_id db res h
  refine ⟨?_, ?_, ?_, ?_, ?_, ?_, fun p => riskLabel_partition p⟩
  · rw [hp, clampProbability_eq_max_min, scoreTotal_eq]
  · rw [hp]; exact (clampProbability_mem _).1
  · rw [hp]; exact (clampProbability_mem _).2
  · rw [hl, hp]; exact (riskLabel_partition _).1
  · rw [hl, hp]; exact (riskLabel_partition _).2.1
  · rw [hl, hp]; exact (riskLabel_partition _).2.2

/-- Witness for C1: the formula conclusion instantiated at the all-ones
feature vector against the empty store. -/
theorem predict_probability_formula_and_label_partition_witness :
    ((⟨"0", 1, "High Risk"⟩ : PredictResponse),
      (⟨[], [], [⟨"0", ⟨"u", featuresDict ⟨1, 1, 1, 1, 1, none⟩, 1, 1, "High Risk",
        some "", none, none⟩⟩], [], [], 1⟩ : DB)).1.probability =
      max 0 (min 1 (18/100 * (1:ℚ) + 22/100 * 1 + 22/100 * 1 + 20/100 * 1 + 18/100 * 1)) :=
  (predict_probability_formula_and_label_partition ⟨1, 1, 1, 1, 1, none⟩ none (some "u")
    dbEmpty _ (by norm_num [predict, predictPid, scoreTotal, weights, getFeature, clampProbability,
      pyMin, pyMax, riskLabel, featuresDict, createAssessment, freshId, pyTruthy,
      pyStrOrUnknown, dbEmpty, show ("u".isEmpty = false) from rfl,
      show toString (0:Nat) = "0" from rfl])).1

/-- C2: the three example feature vectors of the spec give exactly
probability 1 / label "High Risk", probability 0 / label "Low Risk" and
probability 1/2 / label "Moderate Risk". -/
theorem predict_examples_exact :
    (predict ⟨1, 1, 1, 1, 1, none⟩ none (some "u") dbEmpty).toOption.map
      (fun r => (r.1.probability, r.1.label)) = some (1, "High Risk") ∧
    (predict ⟨0, 0, 0, 0, 0, none⟩ none (some "u") dbEmpty).toOption.map
      (fun r => (r.1.probability, r.1.label)) = some (0, "Low Risk") ∧
    (predict ⟨1/2, 1/2, 1/2, 1/2, 1/2, none⟩ none (some "u") dbEmpty).toOption.map
      (fun r => (r.1.probability, r.1.label)) = some (1/2, "Moderate Risk") := by
  refine ⟨?_, ?_, ?_⟩ <;>
    norm_num [predict, predictPid, scoreTotal, weights, getFeature, clampProbability, pyMin, pyMax,
      riskLabel, featuresDict, createAssessment, freshId, pyTruthy, pyStrOrUnknown,
      dbEmpty, Except.toOption, show ("u".isEmpty = false) from rfl]

/-! Helper lemmas about the identity and session flows. -/

/-- A digest function used to instantiate witnesses. -/
def demoDigest (s : String) : String := "#" ++ s

/-- A store holding one patient Alice, used to instantiate witnesses. -/
def dbPatientA : DB :=
  ⟨[⟨"0", ⟨"Alice", "a@x.com", "#pw", none, none⟩⟩], [], [], [], [], 1⟩

/-- find? skips a prefix on which the predicate is everywhere false. -/
theorem find?_append_none {α : Type} (l₁ l₂ : List α) (p : α → Bool)
    (h : ∀ x ∈ l₁, p x = false) : (l₁ ++ l₂).find? p = l₂.find? p := by
  induction l₁ with
  | nil => rfl
  | cons a l ih =>
    rw [List.cons_append, List.find?_cons_of_neg]
    · exact ih fun x hx => h x (List.mem_cons_of_mem a hx)
    · simp [h a (List.mem_cons_self a l)]

/-- Inversion of a successful register call. -/
theorem register_ok_inv (digest : String → String) (tok : String)
    (req : RegisterRequest) (db : DB) (resp : AuthResponse) (db' : DB)
    (h : register digest tok req db = .ok (resp, db')) :
    (pyLower req.role = "patient" ∨ pyLower req.role = "doctor") ∧
    resp.token = tok ∧ resp.user_id = freshId db ∧ resp.role = pyLower req.role ∧
    resp.name = req.name ∧ resp.email = req.email ∧
    db'.sessions = db.sessions ++
      [⟨toString (db.nextId + 1), ⟨freshId db, pyLower req.role, tok⟩⟩] ∧
    (pyLower req.role = "patient" →
      db'.patients = db.patients ++
        [⟨freshId db, ⟨req.name, req.email, digest req.password, none, none⟩⟩]) ∧
    (pyLower req.role = "doctor" →
      db'.doctors = db.doctors ++
        [⟨freshId db, ⟨req.name, req.email, digest req.password, none, none⟩⟩]) := by
  simp only [register] at h
  split at h
  · exact absurd h (by simp)
  · rename_i hroles
    rw [not_and_or, not_not, not_not] at hroles
    split at h
    · exact absurd h (by simp)
    · rcases hroles with hr | hr
      · rw [if_pos hr] at h
        simp only [createPatient, create_session, createSession, freshId,
          Except.ok.injEq, Prod.mk.injEq] at h
        obtain ⟨hresp, hdb⟩ := h
        subst hresp; subst hdb
        refine ⟨Or.inl hr, rfl, rfl, rfl, rfl, rfl, rfl, fun _ => rfl, fun hc => ?_⟩
        rw [hr] at hc; exact absurd hc (by decide)
      · have hne : pyLower req.role = "patient" → False := by
          intro hc; rw [hc] at hr; exact absurd hr (by decide)
        rw [if_neg hne] at h
        simp only [createDoctor, create_session, createSession, freshId,
          Except.ok.injEq, Prod.mk.injEq] at h
        obtain ⟨hresp, hdb⟩ := h
        subst hresp; subst hdb
        refine ⟨Or.inr hr, rfl, rfl, rfl, rfl, rfl, rfl, fun hc => absurd hc hne, fun _ => rfl⟩

/-- C3: register fails with 400 on a role other than patient/doctor (after the
lowercasing the code applies), fails with 409 when the email already exists in
the role's own collection, and succeeds whenever the email is absent from that
collection — in particular when the same email is registered under the opposite
role, since the two collections are consulted separately. -/
theorem register_validation_conflict_and_role_scoping
    (digest : String → String) (tok : String) (req : RegisterRequest) (db : DB) :
    (pyLower req.role ≠ "patient" ∧ pyLower req.role ≠ "doctor" →
      register digest tok req db = .error ⟨400, "Role must be patient or doctor"⟩) ∧
    ((pyLower req.role = "patient" ∨ pyLower req.role = "doctor") →
      (get_user_by_email (pyLower req.role) req.email db).isSome = true →
      register digest tok req db = .error ⟨409, "Email already registered"⟩) ∧
    ((pyLower req.role = "patient" ∨ pyLower req.role = "doctor") →
      (get_user_by_email (pyLower req.role) req.email db).isNone = true →
      (register digest tok req db).isOk = true) := by
  refine ⟨fun hbad => ?_, fun hrole hdup => ?_, fun hrole hfree => ?_⟩
  · simp only [register]
    rw [if_pos hbad]
  · simp only [register]
    rw [if_neg (by tauto), if_pos hdup]
  · have hfree' := Option.isNone_iff_eq_none.mp hfree
    simp only [register]
    rw [if_neg (by tauto), if_neg (by simp [hfree'])]
    rcases hrole with hr | hr
    · rw [if_pos hr]
      rfl
    · have hnp : ¬ (pyLower req.role = "patient") := by rw [hr]; decide
      rw [if_neg hnp]
      rfl

/-- Witness for C3: registering Bob as a doctor under an email that Alice
already holds as a patient succeeds. -/
theorem register_validation_conflict_and_role_scoping_witness :
    (register demoDigest "t1" ⟨"doctor", "Bob", "a@x.com", "pw"⟩ dbPatientA).isOk = true :=
  (register_validation_conflict_and_role_scoping demoDigest "t1"
    ⟨"doctor", "Bob", "a@x.com", "pw"⟩ dbPatientA).2.2 (Or.inr (by decide)) (by decide)

/-- C4: the token issued by a successful registration resolves through the
session collection to exactly the user id and role of that registration, and
the user document with that id is the one the registration created. -/
theorem register_token_roundtrip
    (digest : String → String) (tok : String) (req : RegisterRequest) (db : DB)
    (resp : AuthResponse) (db' : DB)
    (hfresh : ∀ s ∈ db.sessions, s.doc.token ≠ tok)
    (h : register digest tok req db = .ok (resp, db')) :
    (resolve_session resp.token db').map (fun s => (s.doc.user_id, s.doc.role)) =
      some (resp.user_id, pyLower req.role) ∧
    (pyLower req.role = "patient" →
      (⟨resp.user_id, ⟨req.name, req.email, digest req.password, none, none⟩⟩ :
        Stored Patient) ∈ db'.patients) ∧
    (pyLower req.role = "doctor" →
      (⟨resp.user_id, ⟨req.name, req.email, digest req.password, none, none⟩⟩ :
        Stored Doctor) ∈ db'.doctors) := by
  obtain ⟨hrole, htok, huid, hrrole, hname, hemail, hsess, hpat, hdoc⟩ :=
    register_ok_inv digest tok req db resp db' h
  refine ⟨?_, fun hr => ?_, fun hr => ?_⟩
  · unfold resolve_session
    rw [htok, hsess, find?_append_none]
    · simp [huid]
    · intro s hs
      simp [hfresh s hs]
  · rw [hpat hr, huid]
    simp
  · rw [hdoc hr, huid]
    simp

/-- The store produced by registering Alice as a patient against the empty
store with token "t0" under the demo digest. -/
def dbAfterRegister : DB :=
  ⟨[⟨"0", ⟨"Alice", "a@x.com", "#pw", none, none⟩⟩], [], [], [],
    [⟨"1", ⟨"0", "patient", "t0"⟩⟩], 2⟩

/-- Witness for C4: the round-trip conclusion instantiated at Alice's
registration against the empty store. -/
theorem register_token_roundtrip_witness :
    (resolve_session (⟨"t0", "patient", "0", "Alice", "a@x.com"⟩ : AuthResponse).token
      dbAfterRegister).map (fun s => (s.doc.user_id, s.doc.role)) =
      some ((⟨"t0", "patient", "0", "Alice", "a@x.com"⟩ : AuthResponse).user_id,
        pyLower "patient") :=
  (register_token_roundtrip demoDigest "t0" ⟨"patient", "Alice", "a@x.com", "pw"⟩ dbEmpty
    ⟨"t0", "patient", "0", "Alice", "a@x.com"⟩ dbAfterRegister
    (fun s hs => absurd hs (List.not_mem_nil s)) rfl).1

/-- C5: with a valid role, login fails with 401 exactly when no user with the
email exists in the role's collection or the supplied password's digest differs
from the stored hash; 401 is the only failure; and on success the fresh token
is appended as a new session while every previously issued session remains. -/
theorem login_auth_iff_and_fresh_session
    (digest : String → String) (tok : String) (req : LoginRequest) (db : DB)
    (hrole : pyLower req.role = "patient" ∨ pyLower req.role = "doctor") :
    (login digest tok req db = .error ⟨401, "Invalid credentials"⟩ ↔
      (get_user_by_email (pyLower req.role) req.email db = none ∨
        ∀ u, get_user_by_email (pyLower req.role) req.email db = some u →
          digest req.password ≠ u.password_hash)) ∧
    (∀ e, login digest tok req db = .error e → e = ⟨401, "Invalid credentials"⟩) ∧
    (∀ resp db', login digest tok req db = .ok (resp, db') →
      resp.token = tok ∧
      db'.sessions = db.sessions ++ [⟨freshId db, ⟨resp.user_id, pyLower req.role, tok⟩⟩] ∧
      ∀ s ∈ db.sessions, s ∈ db'.sessions) := by
  have hcond : ¬ (pyLower req.role ≠ "patient" ∧ pyLower req.role ≠ "doctor") := by tauto
  have hstep : login digest tok req db =
      match get_user_by_email (pyLower req.role) req.email db with
      | none => .error ⟨401, "Invalid credentials"⟩
      | some user =>
        if ¬ verify_password digest req.password user.password_hash then
          .error ⟨401, "Invalid credentials"⟩
        else
          .ok (⟨tok, pyLower req.role, user.id, user.name, user.email⟩,
            ⟨db.patients, db.doctors, db.assessments, db.feedbacks,
              db.sessions ++ [⟨freshId db, ⟨user.id, pyLower req.role, tok⟩⟩],
              db.nextId + 1⟩) := by
    simp only [login]
    rw [if_neg hcond]
    rfl
  rw [hstep]
  cases huser : get_user_by_email (pyLower req.role) req.email db with
  | none =>
    refine ⟨⟨fun _ => Or.inl rfl, fun _ => rfl⟩, fun e he => ?_, fun resp db' hok => ?_⟩
    · cases he
      rfl
    · exact absurd hok (by simp)
  | some u =>
    dsimp only
    by_cases hv : verify_password digest req.password u.password_hash = true
    · rw [if_neg (not_not_intro hv)]
      refine ⟨iff_of_false (by simp) ?_, fun e he => absurd he (by simp),
        fun resp db' hok => ?_⟩
      · rintro (hnone | hall)
        · exact absurd hnone (by simp)
        · refine hall u rfl ?_
          simpa [verify_password, beq_iff_eq] using hv
      · simp only [Except.ok.injEq, Prod.mk.injEq] at hok
        obtain ⟨hresp, hdb⟩ := hok
        subst hresp
        subst hdb
        exact ⟨rfl, rfl, fun s hs => List.mem_append_left _ hs⟩
    · rw [if_pos hv]
      refine ⟨iff_of_true rfl (Or.inr fun u' hu' hd => ?_), fun e he => ?_,
        fun resp db' hok => absurd hok (by simp)⟩
      · cases hu'
        exact hv (by simp [verify_password, beq_iff_eq, hd])
      · cases he
        rfl

/-- The store produced by Alice logging in against dbPatientA with token
"t9". -/
def dbAfterLogin : DB :=
  ⟨[⟨"0", ⟨"Alice", "a@x.com", "#pw", none, none⟩⟩], [], [], [],
    [⟨"1", ⟨"0", "patient", "t9"⟩⟩], 2⟩

/-- Witness for C5: Alice logs in with the correct password and the fresh
token "t9" is returned. -/
theorem login_auth_iff_and_fresh_session_witness :
    (⟨"t9", "patient", "0", "Alice", "a@x.com"⟩ : AuthResponse).token = "t9" :=
  ((login_auth_iff_and_fresh_session demoDigest "t9" ⟨"patient", "a@x.com", "pw"⟩
    dbPatientA (Or.inl (by decide))).2.2
    ⟨"t9", "patient", "0", "Alice", "a@x.com"⟩ dbAfterLogin rfl).1

/-! Helper lemmas for the predict ownership logic. -/

/-- A falsy pid is persisted as the sentinel "unknown". -/
theorem pyStrOrUnknown_of_falsy (o : Option String) (h : pyTruthy o = false) :
    pyStrOrUnknown o = "unknown" := by
  cases o with
  | none => rfl
  | some s =>
    cases hempty : s.isEmpty with
    | true => simp [pyStrOrUnknown, hempty]
    | false => simp [pyTruthy, hempty] at h

/-- The last element of a list extended by one element. -/
theorem getLast?_append_singleton {α : Type} (l : List α) (a : α) :
    (l ++ [a]).getLast? = some a := by
  rw [List.getLast?_concat]

/-- C6: predict fails exactly when neither a token nor a user id is supplied
(an empty string counting as absent, per Python truthiness), the only failure
is 401 "Authentication required", and a supplied token always leads to
success even when it resolves to no session. -/
theorem predict_auth_required_iff
    (req : PredictionRequest) (token user_id : Option String) (db : DB) :
    ((∃ e, predict req token user_id db = .error e) ↔
      (pyTruthy token = false ∧ pyTruthy user_id = false)) ∧
    (∀ e, predict req token user_id db = .error e →
      e = ⟨401, "Authentication required"⟩) ∧
    (pyTruthy token = true → (predict req token user_id db).isOk = true) := by
  by_cases hc : ¬ pyTruthy token = true ∧ ¬ pyTruthy user_id = true
  · have hred : predict req token user_id db =
        .error ⟨401, "Authentication required"⟩ := by
      simp only [predict]
      rw [if_pos hc]
    refine ⟨iff_of_true ⟨_, hred⟩ ⟨by simpa using hc.1, by simpa using hc.2⟩,
      fun e he => ?_, fun ht => absurd ht hc.1⟩
    rw [hred] at he
    cases he
    rfl
  · have hred : predict req token user_id db = .ok
        (⟨freshId db, clampProbability (scoreTotal req),
          riskLabel (clampProbability (scoreTotal req))⟩,
         ⟨db.patients, db.doctors, db.assessments ++
            [⟨freshId db, ⟨pyStrOrUnknown (predictPid token user_id db),
              featuresDict req, clampProbability (scoreTotal req),
              clampProbability (scoreTotal req),
              riskLabel (clampProbability (scoreTotal req)),
              some ((req.notes).getD ""), none, none⟩⟩],
          db.feedbacks, db.sessions, db.nextId + 1⟩) := by
      simp only [predict]
      rw [if_neg hc]
      rfl
    refine ⟨iff_of_false ?_ ?_, fun e he => ?_, fun _ => by rw [hred]; rfl⟩
    · rintro ⟨e, he⟩
      rw [hred] at he
      exact absurd he (by simp)
    · rintro ⟨h1, h2⟩
      exact hc ⟨by simp [h1], by simp [h2]⟩
    · rw [hred] at he
      exact absurd he (by simp)

/-- Witness for C6: a supplied token that resolves to no session still leads
to success against the empty store. -/
theorem predict_auth_required_iff_witness :
    (predict ⟨1, 1, 1, 1, 1, none⟩ (some "ghost") none dbEmpty).isOk = true :=
  (predict_auth_required_iff ⟨1, 1, 1, 1, 1, none⟩ (some "ghost") none dbEmpty).2.2 rfl

/-- C7: when only a token is supplied (no user id), the persisted assessment
belongs to the session's user exactly when the token resolves to a session
with role patient; a session of another role, or no session at all, yields
the sentinel "unknown".  Sessions are assumed to carry non-empty user ids,
as every session the system writes stores a store-assigned document id. -/
theorem predict_token_ownership
    (req : PredictionRequest) (t : String) (user_id : Option String) (db : DB)
    (ht : t.isEmpty = false) (huid : pyTruthy user_id = false)
    (hwf : ∀ s ∈ db.sessions, s.doc.user_id.isEmpty = false) :
    ∀ res db', predict req (some t) user_id db = .ok (res, db') →
      db'.assessments.length = db.assessments.length + 1 ∧
      (lastAssessment db').map (fun a => a.doc.patient_id) =
        some (match resolve_session t db with
          | some sess =>
            if sess.doc.role = "patient" then sess.doc.user_id else "unknown"
          | none => "unknown") ∧
      (lastAssessment db').map (fun a => a.id) = some res.assessment_id := by
  intro res db' h
  have htt : pyTruthy (some t) = true := by simp [pyTruthy, ht]
  simp only [predict] at h
  rw [if_neg (by simp [htt])] at h
  simp only [createAssessment, Except.ok.injEq, Prod.mk.injEq] at h
  obtain ⟨hres, hdb⟩ := h
  subst hres
  subst hdb
  refine ⟨by simp, ?_, ?_⟩
  · simp only [lastAssessment]
    rw [getLast?_append_singleton]
    simp only [Option.map]
    congr 1
    simp only [predictPid]
    rw [if_pos ⟨htt, by simp [huid]⟩]
    cases hrs : resolve_session t db with
    | none => exact pyStrOrUnknown_of_falsy user_id huid
    | some sess =>
      dsimp only
      by_cases hrole : sess.doc.role = "patient"
      · rw [if_pos hrole, if_pos hrole]
        have hmem := List.mem_of_find?_eq_some hrs
        have hne := hwf sess hmem
        simp [pyStrOrUnknown, hne]
      · rw [if_neg hrole, if_neg hrole]
        exact pyStrOrUnknown_of_falsy user_id huid
  · simp only [lastAssessment]
    rw [getLast?_append_singleton]
    rfl

/-- Zero-feature request used in witnesses. -/
def reqZero : PredictionRequest := ⟨0, 0, 0, 0, 0, none⟩

/-- A store holding one patient session for user "7" under token "ptok". -/
def dbSeedC7 : DB := ⟨[], [], [], [], [⟨"5", ⟨"7", "patient", "ptok"⟩⟩], 6⟩

/-- dbSeedC7 after a predict call with token "ptok" on the zero request. -/
def dbC7After : DB :=
  ⟨[], [], [⟨"6", ⟨pyStrOrUnknown (predictPid (some "ptok") none dbSeedC7),
    featuresDict reqZero, clampProbability (scoreTotal reqZero),
    clampProbability (scoreTotal reqZero),
    riskLabel (clampProbability (scoreTotal reqZero)), some "", none, none⟩⟩],
    [], [⟨"5", ⟨"7", "patient", "ptok"⟩⟩], 7⟩

/-- Witness for C7: with only the patient token "ptok" supplied, the persisted
assessment's patient_id is the session's user id "7". -/
theorem predict_token_ownership_witness :
    (lastAssessment dbC7After).map (fun a => a.doc.patient_id) =
      some (match resolve_session "ptok" dbSeedC7 with
        | some sess =>
          if sess.doc.role = "patient" then sess.doc.user_id else "unknown"
        | none => "unknown") :=
  (predict_token_ownership reqZero "ptok" none dbSeedC7 rfl rfl (by decide)
    ⟨"6", clampProbability (scoreTotal reqZero),
      riskLabel (clampProbability (scoreTotal reqZero))⟩ dbC7After rfl).2.1

/-- C8: list_patient_assessments fails with 401 unless the token resolves to
a patient session; on success it returns exactly the assessments whose
patient_id equals the session's user id, so no assessment of a different
patient — nor, when the session's user id is not the sentinel, of "unknown" —
ever appears. -/
theorem patient_assessments_spec (t : String) (db : DB) :
    (∀ sess, resolve_session t db = some sess → sess.doc.role = "patient" →
      patient_assessments t db =
        .ok (db.assessments.filter (fun a => a.doc.patient_id = sess.doc.user_id)) ∧
      ∀ items, patient_assessments t db = .ok items → ∀ a ∈ items,
        a.doc.patient_id = sess.doc.user_id ∧
        (∀ other, other ≠ sess.doc.user_id → a.doc.patient_id ≠ other) ∧
        (sess.doc.user_id ≠ "unknown" → a.doc.patient_id ≠ "unknown")) ∧
    (∀ sess, resolve_session t db = some sess → sess.doc.role ≠ "patient" →
      patient_assessments t db = .error ⟨401, "Unauthorized"⟩) ∧
    (resolve_session t db = none →
      patient_assessments t db = .error ⟨401, "Unauthorized"⟩) := by
  refine ⟨fun sess hres hrole => ?_, fun sess hres hrole => ?_, fun hres => ?_⟩
  · have hok : patient_assessments t db =
        .ok (db.assessments.filter (fun a => a.doc.patient_id = sess.doc.user_id)) := by
      simp only [patient_assessments]
      rw [hres]
      dsimp only
      rw [if_neg (not_not_intro hrole)]
    refine ⟨hok, fun items hitems a ha => ?_⟩
    rw [hok] at hitems
    cases hitems
    have hmem := List.mem_filter.mp ha
    have hpid : a.doc.patient_id = sess.doc.user_id := by
      simpa using hmem.2
    exact ⟨hpid, fun other hother hcontra => hother ((hpid.symm.trans hcontra).symm),
      fun hunk hcontra => hunk (hpid.symm.trans hcontra)⟩
  · simp only [patient_assessments]
    rw [hres]
    dsimp only
    rw [if_pos hrole]
  · simp only [patient_assessments]
    rw [hres]

/-- A store with a patient session for user "7" and three assessments: one
owned by "7", one owned by "8", one unresolved ("unknown"). -/
def dbSeedC8 : DB :=
  ⟨[], [],
    [⟨"1", ⟨"7", [], 0, 0, "Low Risk", some "", none, none⟩⟩,
     ⟨"2", ⟨"8", [], 0, 0, "Low Risk", some "", none, none⟩⟩,
     ⟨"3", ⟨"unknown", [], 0, 0, "Low Risk", some "", none, none⟩⟩],
    [], [⟨"5", ⟨"7", "patient", "ptok"⟩⟩], 6⟩

/-- Witness for C8: on the seeded store the patient token returns exactly the
filtered list. -/
theorem patient_assessments_spec_witness :
    patient_assessments "ptok" dbSeedC8 =
      .ok (dbSeedC8.assessments.filter
        (fun a => a.doc.patient_id = (⟨"7", "patient", "ptok"⟩ : Session).user_id)) :=
  ((patient_assessments_spec "ptok" dbSeedC8).1 ⟨"5", ⟨"7", "patient", "ptok"⟩⟩
    rfl rfl).1

/-- C9: submit_feedback fails with 401 unless the token resolves to a doctor
session; with a doctor session it succeeds for every assessment_id — no
existence check is made on the referenced assessment — appending a feedback
document that records the doctor's id and the given assessment id. -/
theorem doctor_feedback_spec (req : FeedbackRequest) (t : String) (db : DB) :
    (∀ sess, resolve_session t db = some sess → sess.doc.role = "doctor" →
      doctor_feedback req t db =
        .ok (freshId db,
          ⟨db.patients, db.doctors, db.assessments,
            db.feedbacks ++ [⟨freshId db, ⟨sess.doc.user_id, req.assessment_id,
              req.message, req.severity, (req.recommendations).getD []⟩⟩],
            db.sessions, db.nextId + 1⟩)) ∧
    (∀ sess, resolve_session t db = some sess → sess.doc.role ≠ "doctor" →
      doctor_feedback req t db = .error ⟨401, "Unauthorized"⟩) ∧
    (resolve_session t db = none →
      doctor_feedback req t db = .error ⟨401, "Unauthorized"⟩) := by
  refine ⟨fun sess hres hrole => ?_, fun sess hres hrole => ?_, fun hres => ?_⟩
  · simp only [doctor_feedback]
    rw [hres]
    dsimp only
    rw [if_neg (not_not_intro hrole)]
    rfl
  · simp only [doctor_feedback]
    rw [hres]
    dsimp only
    rw [if_pos hrole]
  · simp only [doctor_feedback]
    rw [hres]

/-- A store holding only a doctor session for user "9" under token "dtok";
it contains no assessment at all. -/
def dbSeedC9 : DB := ⟨[], [], [], [], [⟨"5", ⟨"9", "doctor", "dtok"⟩⟩], 6⟩

/-- Witness for C9: feedback on the nonexistent assessment id "missing"
succeeds against a store with no assessments. -/
theorem doctor_feedback_spec_witness :
    doctor_feedback ⟨"missing", "check this", none, none⟩ "dtok" dbSeedC9 =
      .ok (freshId dbSeedC9,
        ⟨dbSeedC9.patients, dbSeedC9.doctors, dbSeedC9.assessments,
          dbSeedC9.feedbacks ++ [⟨freshId dbSeedC9,
            ⟨(⟨"9", "doctor", "dtok"⟩ : Session).user_id, "missing", "check this",
              none, (Option.getD (none : Option (List String)) [])⟩⟩],
          dbSeedC9.sessions, dbSeedC9.nextId + 1⟩) :=
  ((doctor_feedback_spec ⟨"missing", "check this", none, none⟩ "dtok" dbSeedC9).1
    ⟨"5", ⟨"9", "doctor", "dtok"⟩⟩ rfl rfl)

/-- C10: when both a token and a user id are supplied, predict always
succeeds, and the persisted assessment's patient_id is the supplied user id
verbatim — whatever session the token resolves to (patient, doctor or none)
and whether or not the user id names a stored patient. -/
theorem predict_userid_verbatim
    (req : PredictionRequest) (t u : String) (db : DB)
    (ht : t.isEmpty = false) (hu : u.isEmpty = false) :
    (predict req (some t) (some u) db).isOk = true ∧
    ∀ res db', predict req (some t) (some u) db = .ok (res, db') →
      db'.assessments.length = db.assessments.length + 1 ∧
      (lastAssessment db').map (fun a => a.doc.patient_id) = some u := by
  have htt : pyTruthy (some t) = true := by simp [pyTruthy, ht]
  have hut : pyTruthy (some u) = true := by simp [pyTruthy, hu]
  have hpid : predictPid (some t) (some u) db = some u := by
    simp only [predictPid]
    rw [if_neg (by simp [hut])]
  have hred : predict req (some t) (some u) db = .ok
      (⟨freshId db, clampProbability (scoreTotal req),
        riskLabel (clampProbability (scoreTotal req))⟩,
       ⟨db.patients, db.doctors, db.assessments ++
          [⟨freshId db, ⟨pyStrOrUnknown (some u), featuresDict req,
            clampProbability (scoreTotal req), clampProbability (scoreTotal req),
            riskLabel (clampProbability (scoreTotal req)),
            some ((req.notes).getD ""), none, none⟩⟩],
        db.feedbacks, db.sessions, db.nextId + 1⟩) := by
    simp only [predict]
    rw [if_neg (by simp [htt]), hpid]
    rfl
  refine ⟨by rw [hred]; rfl, fun res db' h => ?_⟩
  rw [hred] at h
  simp only [Except.ok.injEq, Prod.mk.injEq] at h
  obtain ⟨hres, hdb⟩ := h
  subst hres
  subst hdb
  refine ⟨by simp, ?_⟩
  simp only [lastAssessment]
  rw [getLast?_append_singleton]
  simp only [Option.map]
  congr 1
  simp [pyStrOrUnknown, hu]

/-- A store whose only session is a doctor session under token "dtok". -/
def dbSeedC10 : DB := ⟨[], [], [], [], [⟨"5", ⟨"9", "doctor", "dtok"⟩⟩], 6⟩

/-- Witness for C10: with a doctor token and an arbitrary user id "ghost-77"
that names no stored patient, the call succeeds anyway. -/
theorem predict_userid_verbatim_witness :
    (predict reqZero (some "dtok") (some "ghost-77") dbSeedC10).isOk = true :=
  (predict_userid_verbatim reqZero "dtok" "ghost-77" dbSeedC10 rfl rfl).1

end AutismAPI
